import Mathlib

set_option maxRecDepth 100000

/-!
Shallow embedding of `digiosc/av3/base.py` (class `AV3Base`): the avatar
parameter engine that reconstructs avatar state from inbound OSC messages,
derives secondary quantities (base height, velocity), detects avatar
reset/change transitions, and emits change events.

Python floats are modelled as rationals, Python ints as `Int`, Python bools
as `Bool`.  The sentinel `UNFETCHED` is modelled by the `unfetched`
constructor of `Cell` (for the recognized-parameter dict, whose keys are
always present in reachable states) and by `none` (for the custom dict,
where a missing key plays that role).  Logging and the network send calls
are side effects outside the state model and are omitted; everything that
mutates engine state or fires a consumer event is modelled.
-/

namespace AV3

attribute [local semireducible] Rat.mul Rat.inv Rat.add Rat.sub

/-- A Python runtime value that can arrive as an OSC payload or be stored in
a parameter table: int, float, bool, or string (avatar ids). -/
inductive PValue
  | vInt (n : Int)
  | vFloat (q : ℚ)
  | vBool (b : Bool)
  | vStr (s : String)
deriving DecidableEq, Repr

/-- `isinstance(x, float)` on a payload. -/
def PValue.isFloat : PValue → Bool
  | .vFloat _ => true
  | _ => false

/-- Numeric view of a Python value: bools count as 0/1, strings are not
numeric.  Used to model Python `==` across numeric types. -/
def PValue.toNum : PValue → Option ℚ
  | .vInt n => some (n : ℚ)
  | .vFloat q => some q
  | .vBool b => some (if b then 1 else 0)
  | .vStr _ => none

/-- Python `==` on payload values: numeric values compare by numeric value
(`1 == 1.0 == True` holds in Python), strings by string equality, and a
number never equals a string. -/
def pyEq (a b : PValue) : Bool :=
  match a.toNum, b.toNum with
  | some x, some y => decide (x = y)
  | _, _ =>
    match a, b with
    | .vStr s, .vStr t => decide (s = t)
    | _, _ => false

/-- One slot of the recognized-parameter dict `self.parameters`: the key may
be absent from the dict, present with value `UNFETCHED`, or present with a
payload value. -/
inductive Cell
  | absent
  | unfetched
  | known (v : PValue)
deriving DecidableEq, Repr

/-- `self.parameters.get(k, UNFETCHED) == v` for a payload `v`:
`UNFETCHED` (and an absent key, which `.get` maps to the default) compares
unequal to every payload. -/
def cellPyEq (c : Cell) (v : PValue) : Bool :=
  match c with
  | .known w => pyEq w v
  | _ => false

/-- `self.custom_parameters.get(k, UNFETCHED) == v`. -/
def optPyEq (o : Option PValue) (v : PValue) : Bool :=
  match o with
  | some w => pyEq w v
  | none => false

/-- `x == AV2_HANDS_ONLY`-style comparison of the `_tracking_type` field
(initially `UNFETCHED`, modelled `none`) against an integer enum value. -/
def pyEqOptInt (o : Option PValue) (k : Int) : Bool :=
  match o with
  | some v => pyEq v (.vInt k)
  | none => false

/-- Round a rational to the nearest integer, ties to even — the rounding
rule of Python `round`. -/
def roundHalfEven (q : ℚ) : Int :=
  let f : Int := q.floor
  let r : ℚ := q - (f : ℚ)
  if r < 1 / 2 then f
  else if 1 / 2 < r then f + 1
  else if f % 2 = 0 then f else f + 1

/-- Python `round(q, n)` for a float modelled as a rational: scale by
`10 ^ n`, round half to even, scale back. -/
def pyRound (q : ℚ) (n : Nat) : ℚ :=
  (roundHalfEven (q * ((10 ^ n : ℕ) : ℚ)) : ℚ) / ((10 ^ n : ℕ) : ℚ)

/-- `str.startswith`: `strStarts s p` is `s.startswith(p)`. -/
def strStarts (s p : String) : Bool :=
  decide (s.take p.length = p)

/-- `str.removeprefix`. -/
def dropPre (s p : String) : String :=
  if strStarts s p then s.drop p.length else s

/-- The keys of the `AvatarParameters` TypedDict of `digiosc/lib/vrchat.py`,
i.e. `AV3Base.DEFAULT_PARAMETER_NAMES`. -/
def DEFAULT_PARAMETER_NAMES : List String :=
  ["IsLocal", "PreviewMode", "Viseme", "Voice", "GestureLeft", "GestureRight",
   "GestureLeftWeight", "GestureRightWeight", "AngularY", "VelocityX",
   "VelocityY", "VelocityZ", "VelocityMagnitude", "Upright", "Grounded",
   "Seated", "AFK", "TrackingType", "VRMode", "MuteSelf", "InStation",
   "Earmuffs", "IsOnFriendsList", "AvatarVersion", "IsAnimatorEnabled",
   "ScaleModified", "ScaleFactor", "ScaleFactorInverse", "EyeHeightAsMeters",
   "EyeHeightAsPercent"]

/-- `AV3Base.SCALE_PARAMETER_NAMES`. -/
def SCALE_PARAMETER_NAMES : List String :=
  ["ScaleFactor", "EyeHeightAsMeters"]

/-- `AV3Base.ALL_SCALE_PARAMETER_NAMES`. -/
def ALL_SCALE_PARAMETER_NAMES : List String :=
  ["ScaleFactor", "EyeHeightAsMeters", "ScaleFactorInverse",
   "EyeHeightAsPercent", "ScaleModified"]

/-- `AV3Base.VELOCITY_PARAMETER_NAMES` (note: four names, the three axes and
the magnitude). -/
def VELOCITY_PARAMETER_NAMES : List String :=
  ["VelocityX", "VelocityY", "VelocityZ", "VelocityMagnitude"]

/-- The `TrackingType.AV2_HANDS_ONLY` enum value. -/
def AV2_HANDS_ONLY : Int := 2

/-- Constructor-time configuration of `AV3Base`, immutable afterwards.  The
source field `parameter_prefix_blacklist` is named `param_blacklist` here. -/
structure Config where
  assume_base_state : Bool
  accurate_scale_polling : Bool
  param_blacklist : List String
  round_floats_to : Option Nat
  forms : List String
deriving DecidableEq, Repr

/-- The mutable state of an `AV3Base` object (fields the claims are about).
`parameters` is the recognized dict, `custom_parameters` the custom dict
(`none` = key absent), `just_set` is `_just_set`, `tracking_type` is
`_tracking_type` (`none` = `UNFETCHED`). -/
structure State where
  cfg : Config
  parameters : String → Cell
  custom_parameters : String → Option PValue
  just_set : List String
  base_height : Option ℚ
  current_avatar_id : Option PValue
  tracking_type : Option PValue

/-- Events delivered to the consumer surface (the `on_*` callbacks), in
emission order. -/
inductive Event
  | paramChange (parameter : String) (value : PValue) (custom : Bool) (set : Bool)
  | heightChange (parameter : String) (value : PValue)
  | velocityChange (x y z : PValue)
  | visemeChange (code : Int)
  | avatarChange (id : PValue) (is_form : Bool)
  | avatarReset
  | unknownMessage (address : String) (message : PValue)
deriving DecidableEq, Repr

/-- Runtime errors a handler invocation can raise (the exception escapes the
handler; state mutations made before the raise persist). -/
inductive HErr
  | indexError
  | visemeError
  | typeError
  | zeroDivisionError
  | keyError
deriving DecidableEq, Repr

/-- Result of one handler invocation: the state after it, the consumer
events fired (in order), and the exception that escaped, if any. -/
structure HResult where
  state : State
  events : List Event
  err : Option HErr

/-- `self.parameters[k] = v`. -/
def setParam (p : String → Cell) (k : String) (v : PValue) : String → Cell :=
  fun n => if n = k then Cell.known v else p n

/-- `self.custom_parameters[k] = v`. -/
def setCustom (p : String → Option PValue) (k : String) (v : PValue) :
    String → Option PValue :=
  fun n => if n = k then some v else p n

/-- The assignments performed by `AV3Base._set_defaults`, in source order.
`Viseme.SIL`, `Gesture.NEUTRAL` are the IntEnum value 0. -/
def DEFAULTS_LIST : List (String × PValue) :=
  [("Viseme", .vInt 0), ("VelocityMagnitude", .vFloat 0), ("VelocityX", .vFloat 0),
   ("VelocityY", .vFloat 0), ("VelocityZ", .vFloat 0), ("Voice", .vFloat 0),
   ("Grounded", .vBool false), ("GestureLeft", .vInt 0), ("GestureRight", .vInt 0),
   ("GestureLeftWeight", .vFloat 0), ("GestureRightWeight", .vFloat 0),
   ("Seated", .vBool false), ("InStation", .vBool false)]

/-- `AV3Base._set_defaults` (its effect on the recognized dict). -/
def set_defaults (p : String → Cell) : String → Cell :=
  DEFAULTS_LIST.foldl (fun acc kv => setParam acc kv.1 kv.2) p

/-- Rounding applied to an incoming float when a precision is configured
(`if self.round_floats_to is not None: arg = round(args[0], ...)`). -/
def roundQ (o : Option Nat) (q : ℚ) : ℚ :=
  match o with
  | some n => pyRound q n
  | none => q

/-- `arg = round(args[0], self.round_floats_to)` under
`if self.round_floats_to is not None`; only reached for float payloads. -/
def roundedArg (o : Option Nat) (v : PValue) : PValue :=
  match v with
  | .vFloat q => .vFloat (roundQ o q)
  | _ => v

/-- `endpoint.startswith(self.parameter_prefix_blacklist)` (a tuple of
prefixes; the empty tuple matches nothing). -/
def blacklisted (s : State) (endpoint : String) : Bool :=
  s.cfg.param_blacklist.any (fun p => strStarts endpoint p)

/-- `self.current_avatar_id in self.forms` (a set of strings; `None` or a
non-string id is never a member). -/
def currentInForms (s : State) : Bool :=
  match s.current_avatar_id with
  | some (.vStr i) => s.cfg.forms.contains i
  | _ => false

/-- `x in self.forms` for an inbound avatar-change payload. -/
def inForms (forms : List String) (a : PValue) : Bool :=
  match a with
  | .vStr i => forms.contains i
  | _ => false

/-- `AV3Base._derive_base_height`: when both of `SCALE_PARAMETER_NAMES` read
as not `UNFETCHED`, compute the base height; `round` of a non-numeric value
is a TypeError and division by a zero scale factor a ZeroDivisionError (the
error escapes, leaving `base_height` unwritten). -/
def derive_base_height (s : State) : State × Option HErr :=
  if SCALE_PARAMETER_NAMES.all (fun x => s.parameters x ≠ Cell.unfetched) then
    match s.parameters "EyeHeightAsMeters", s.parameters "ScaleFactor" with
    | .known hv, .known fv =>
      if s.parameters "ScaleModified" = .known (.vBool false) || cellPyEq (s.parameters "ScaleFactor") (.vFloat 1) then
        match hv.toNum with
        | some h => ({ s with base_height := some (pyRound h 3) }, none)
        | none => (s, some .typeError)
      else
        match hv.toNum, fv.toNum with
        | some h, some f =>
          if f = 0 then (s, some .zeroDivisionError)
          else ({ s with base_height := some (pyRound (h / f) 3) }, none)
        | _, _ => (s, some .typeError)
    | _, _ => (s, some .keyError)
  else (s, none)

/-- Lines 230–231 of `_handle`: the `_on_height_change` hook, which in
non-accurate mode suppresses every scale name except `ScaleFactor`. -/
def heightEvents (s : State) (endpoint : String) (arg : PValue) : List Event :=
  if endpoint ∈ ALL_SCALE_PARAMETER_NAMES then
    if ¬ s.cfg.accurate_scale_polling ∧
        endpoint ∈ ["ScaleModified", "EyeHeightAsMeters", "ScaleFactorInverse", "EyeHeightAsPercent"] then
      []
    else [.heightChange endpoint arg]
  else []

/-- Lines 232–234 of `_handle`: fire `on_velocity_change` when the endpoint
is one of the four velocity names and all three axes read as fetched. -/
def velocityEvents (s : State) (endpoint : String) : List Event :=
  if endpoint ∈ VELOCITY_PARAMETER_NAMES then
    match s.parameters "VelocityX", s.parameters "VelocityY", s.parameters "VelocityZ" with
    | .known x, .known y, .known z => [.velocityChange x y z]
    | _, _, _ => []
  else []

/-- `Viseme(value)`: the IntEnum lookup succeeds exactly on values
numerically equal to one of the member values 0–14, else `ValueError`. -/
def visemeCode (v : PValue) : Option Int :=
  match v.toNum with
  | some q => if q.den = 1 ∧ 0 ≤ q.num ∧ q.num ≤ 14 then some q.num else none
  | none => none

/-- Lines 235–236 of `_handle`: the viseme hook (raises on an invalid
viseme value, before `on_viseme_change` is called). -/
def visemeStep (endpoint : String) (arg : PValue) : Except HErr (List Event) :=
  if endpoint = "Viseme" then
    match visemeCode arg with
    | some c => .ok [.visemeChange c]
    | none => .error .visemeError
  else .ok []

/-- Lines 237–240 of `_handle` plus `_on_avatar_reset`: on a transition of
`_tracking_type` away from `AV2_HANDS_ONLY`, reset the recognized dict to
defaults when the current avatar is a form and `assume_base_state` is on,
and fire `on_avatar_reset` unconditionally; always record the new value. -/
def trackingStep (s : State) (endpoint : String) (arg : PValue) : State × List Event :=
  if endpoint = "TrackingType" then
    if pyEqOptInt s.tracking_type AV2_HANDS_ONLY && ! pyEq arg (.vInt AV2_HANDS_ONLY) then
      let s1 := if currentInForms s && s.cfg.assume_base_state then
                  { s with parameters := set_defaults s.parameters }
                else s
      ({ s1 with tracking_type := some arg }, [.avatarReset])
    else ({ s with tracking_type := some arg }, [])
  else (s, [])

/-- Lines 223–247 of `_handle`, recognized branch: store, derive base
height, height / velocity / viseme / tracking hooks, `on_parameter_change`,
and clearing of the `_just_set` marker.  An escaping exception cuts the
sequence short but keeps earlier mutations and events. -/
def processRecognized (s : State) (endpoint : String) (arg : PValue) : HResult :=
  let s1 : State := { s with parameters := setParam s.parameters endpoint arg }
  let d := if endpoint ∈ SCALE_PARAMETER_NAMES ∧ s1.base_height = none then
             derive_base_height s1
           else (s1, none)
  match d.2 with
  | some err => ⟨d.1, [], some err⟩
  | none =>
    let s2 := d.1
    let evH := heightEvents s2 endpoint arg
    let evV := velocityEvents s2 endpoint
    match visemeStep endpoint arg with
    | .error err => ⟨s2, evH ++ evV, some err⟩
    | .ok evVis =>
      let tr := trackingStep s2 endpoint arg
      let s3 := tr.1
      let evP : Event := .paramChange endpoint arg
        (decide (endpoint ∈ DEFAULT_PARAMETER_NAMES)) (decide (endpoint ∈ s3.just_set))
      let s4 := if endpoint ∈ s3.just_set then
                  { s3 with just_set := s3.just_set.erase endpoint }
                else s3
      ⟨s4, evH ++ evV ++ evVis ++ tr.2 ++ [evP], none⟩

/-- Lines 241–247 of `_handle`, custom branch. -/
def processCustom (s : State) (endpoint : String) (arg : PValue) : HResult :=
  let s1 : State := { s with custom_parameters := setCustom s.custom_parameters endpoint arg }
  let evP : Event := .paramChange endpoint arg
    (decide (endpoint ∈ DEFAULT_PARAMETER_NAMES)) (decide (endpoint ∈ s1.just_set))
  let s2 := if endpoint ∈ s1.just_set then
              { s1 with just_set := s1.just_set.erase endpoint }
            else s1
  ⟨s2, [evP], none⟩

/-- Line 223 of `_handle`: route the stored endpoint to the recognized or
custom branch by membership in `DEFAULT_PARAMETER_NAMES`. -/
def dispatchParam (s : State) (endpoint : String) (arg : PValue) : HResult :=
  if endpoint ∈ DEFAULT_PARAMETER_NAMES then processRecognized s endpoint arg
  else processCustom s endpoint arg

/-- Lines 217–222 of `_handle`: the duplicate check performed for float
payloads — compare the (rounded) value against the stored one in the table
the endpoint classifies into. -/
def dupSuppressed (s : State) (endpoint : String) (arg : PValue) : Bool :=
  if endpoint ∈ DEFAULT_PARAMETER_NAMES then cellPyEq (s.parameters endpoint) arg
  else optPyEq (s.custom_parameters endpoint) arg

/-- Lines 210–247 of `_handle`: the parameter branch, given the endpoint
name already split from the address.  Blacklist check, `args[0]` access
(IndexError on an empty argument list), float rounding and float-only
duplicate suppression, then dispatch. -/
def handleParameter (s : State) (endpoint : String) (args : List PValue) : HResult :=
  if blacklisted s endpoint then ⟨s, [], none⟩
  else
    match args with
    | [] => ⟨s, [], some .indexError⟩
    | arg0 :: _ =>
      if arg0.isFloat then
        let arg := roundedArg s.cfg.round_floats_to arg0
        if dupSuppressed s endpoint arg then ⟨s, [], none⟩
        else dispatchParam s endpoint arg
      else dispatchParam s endpoint arg0

/-- `AV3Base._handle`: route by address.  `/avatar/change` stores the new
id, resets the recognized dict to defaults under `assume_base_state`, and
fires `on_avatar_change`; any other `/avatar/*` address goes to
`on_unknown_message`.  Both read `args[0]` before firing. -/
def handle (s : State) (address : String) (args : List PValue) : HResult :=
  if strStarts address "/avatar/parameters" then
    handleParameter s (dropPre address "/avatar/parameters/") args
  else if address = "/avatar/change" then
    match args with
    | [] => ⟨s, [], some .indexError⟩
    | a :: _ =>
      let s1 : State := { s with current_avatar_id := some a }
      let s2 := if s1.cfg.assume_base_state then
                  { s1 with parameters := set_defaults s1.parameters }
                else s1
      ⟨s2, [.avatarChange a (inForms s.cfg.forms a)], none⟩
  else
    match args with
    | [] => ⟨s, [], some .indexError⟩
    | a :: _ => ⟨s, [.unknownMessage address a], none⟩

/-- `AV3Base._default_handler` (non-`/avatar/*` traffic): logs and fires
`on_unknown_message` with `args[0]` (IndexError on an empty list). -/
def default_handler (s : State) (address : String) (args : List PValue) : HResult :=
  match args with
  | [] => ⟨s, [], some .indexError⟩
  | a :: _ => ⟨s, [.unknownMessage address a], none⟩

/-- `AV3Base._update_parameter`: store by namespace, fire
`on_parameter_change` with `set = True`, append the `_just_set` marker.  No
rounding and no range validation are applied. -/
def update_parameter (s : State) (parameter : String) (value : PValue) :
    State × List Event :=
  if parameter ∈ DEFAULT_PARAMETER_NAMES then
    ({ s with parameters := setParam s.parameters parameter value,
              just_set := s.just_set ++ [parameter] },
     [.paramChange parameter value false true])
  else
    ({ s with custom_parameters := setCustom s.custom_parameters parameter value,
              just_set := s.just_set ++ [parameter] },
     [.paramChange parameter value true true])

/-- `AV3Base.set_int` (the network send is outside the state model). -/
def set_int (s : State) (parameter : String) (value : Int) : State × List Event :=
  update_parameter s parameter (.vInt value)

/-- `AV3Base.set_float`. -/
def set_float (s : State) (parameter : String) (value : ℚ) : State × List Event :=
  update_parameter s parameter (.vFloat value)

/-- `AV3Base.set_bool`. -/
def set_bool (s : State) (parameter : String) (value : Bool) : State × List Event :=
  update_parameter s parameter (.vBool value)

/-- `self.forms = set((default_id,) + tuple(forms)) if default_id else
set(forms)` — membership-wise (an empty-string id is falsy). -/
def initForms (default_id : Option String) (forms : List String) : List String :=
  match default_id with
  | some d => if d = "" then forms else d :: forms
  | none => forms

/-- `self.custom_parameters.update(custom_parameters)` starting from the
empty dict. -/
def customOfList (l : List (String × PValue)) : String → Option PValue :=
  l.foldl (fun acc kv => setCustom acc kv.1 kv.2) (fun _ => none)

/-- `AV3Base.__init__` (state-relevant part): recognized dict populated with
every recognized key mapped to `UNFETCHED`, custom dict copied unfiltered
from the argument, `base_height` from `default_height`, empty `_just_set`,
`_tracking_type` unfetched. -/
def initState (default_id : Option String) (default_height : Option ℚ)
    (forms : List String) (custom_parameters : List (String × PValue))
    (assume_base_state : Bool) (accurate_scale_polling : Bool)
    (param_blacklist : List String) (round_floats_to : Option Nat) : State :=
  { cfg := { assume_base_state := assume_base_state,
             accurate_scale_polling := accurate_scale_polling,
             param_blacklist := param_blacklist,
             round_floats_to := round_floats_to,
             forms := initForms default_id forms },
    parameters := fun n => if n ∈ DEFAULT_PARAMETER_NAMES then Cell.unfetched else Cell.absent,
    custom_parameters := customOfList custom_parameters,
    just_set := [],
    base_height := default_height,
    current_avatar_id := default_id.map .vStr,
    tracking_type := none }

/-- One engine operation: an inbound message delivered to `_handle`, or an
outbound `set_*` call made by application code. -/
inductive Op
  | inbound (address : String) (args : List PValue)
  | opSetInt (parameter : String) (value : Int)
  | opSetFloat (parameter : String) (value : ℚ)
  | opSetBool (parameter : String) (value : Bool)

/-- Execute one operation. -/
def step (s : State) (op : Op) : HResult :=
  match op with
  | .inbound a args => handle s a args
  | .opSetInt p v => let r := set_int s p v; ⟨r.1, r.2, none⟩
  | .opSetFloat p v => let r := set_float s p v; ⟨r.1, r.2, none⟩
  | .opSetBool p v => let r := set_bool s p v; ⟨r.1, r.2, none⟩

/-- Execute a sequence of operations, accumulating all events in order.
(The socketserver loop keeps serving after a handler exception, so the
state threads through regardless of errors.) -/
def run (s : State) (ops : List Op) : State × List Event :=
  match ops with
  | [] => (s, [])
  | op :: rest =>
    ((run (step s op).state rest).1,
     (step s op).events ++ (run (step s op).state rest).2)

/-- Is the event an `on_parameter_change` delivery? -/
def Event.isParamChangeB : Event → Bool
  | .paramChange _ _ _ _ => true
  | _ => false

/-- Is the event an `on_height_change` delivery? -/
def Event.isHeightB : Event → Bool
  | .heightChange _ _ => true
  | _ => false

/-- Is the event an `on_velocity_change` delivery? -/
def Event.isVelocityB : Event → Bool
  | .velocityChange _ _ _ => true
  | _ => false

/-- Is the event an `on_avatar_reset` delivery? -/
def Event.isResetB : Event → Bool
  | .avatarReset => true
  | _ => false

/-- Is the event an `on_avatar_change` delivery? -/
def Event.isChangeB : Event → Bool
  | .avatarChange _ _ => true
  | _ => false

/-- Classification of every event a single parameter dispatch can emit:
which constructors can appear, and under which endpoint conditions. -/
def EventsOfEndpoint (s : State) (e : String) (ev : Event) : Prop :=
  (∃ v c b, ev = Event.paramChange e v c b)
  ∨ (∃ v, ev = Event.heightChange e v ∧ e ∈ ALL_SCALE_PARAMETER_NAMES ∧
      ¬(¬ s.cfg.accurate_scale_polling ∧
        e ∈ ["ScaleModified", "EyeHeightAsMeters", "ScaleFactorInverse", "EyeHeightAsPercent"]))
  ∨ ((∃ x y z, ev = Event.velocityChange x y z) ∧ e ∈ VELOCITY_PARAMETER_NAMES)
  ∨ ((∃ c, ev = Event.visemeChange c) ∧ e = "Viseme")
  ∨ (ev = Event.avatarReset ∧ e = "TrackingType")

/-- Engine state right after construction with the constructor defaults
(`assume_base_state = True`, `accurate_scale_polling = False`, empty
blacklist, rounding to 3 decimals). -/
def stateDefault : State := initState none none [] [] true false [] (some 3)

/-- Engine state right after construction with `assume_base_state = False`
(all recognized values start unfetched and stay so until observed). -/
def stateNoAssume : State := initState none none [] [] false false [] (some 3)

/-- Engine state right after construction with
`accurate_scale_polling = True`. -/
def stateAccurate : State := initState none none [] [] false true [] (some 3)

/-- The two-namespace invariant of the parameter tables: the recognized dict
holds exactly the recognized names as keys, and the custom dict never holds
a recognized name. -/
def NamespaceInv (s : State) : Prop :=
  (∀ n, s.parameters n ≠ Cell.absent ↔ n ∈ DEFAULT_PARAMETER_NAMES) ∧
  (∀ n, s.custom_parameters n ≠ none → n ∉ DEFAULT_PARAMETER_NAMES)

/-- What one outbound `set_*` call does, per the claim: one
parameter-changed event with the set flag true, the value stored verbatim
in the table the name classifies into, and the self-set marker appended. -/
def OutboundSpec (s : State) (p : String) (v : PValue) (r : State × List Event) : Prop :=
  r.2 = [Event.paramChange p v (decide (p ∉ DEFAULT_PARAMETER_NAMES)) true] ∧
  r.1.just_set = s.just_set ++ [p] ∧
  (p ∈ DEFAULT_PARAMETER_NAMES →
    r.1.parameters p = Cell.known v ∧ r.1.custom_parameters = s.custom_parameters) ∧
  (p ∉ DEFAULT_PARAMETER_NAMES →
    r.1.custom_parameters p = some v ∧ r.1.parameters = s.parameters)

/-- Five inbound updates, one to each of the five scale-related names, with
values distinct from anything previously stored. -/
def scaleMsgs : List Op :=
  [Op.inbound "/avatar/parameters/ScaleFactor" [.vFloat (1/2)],
   Op.inbound "/avatar/parameters/EyeHeightAsMeters" [.vFloat (4/5)],
   Op.inbound "/avatar/parameters/ScaleFactorInverse" [.vFloat 2],
   Op.inbound "/avatar/parameters/EyeHeightAsPercent" [.vFloat (1/4)],
   Op.inbound "/avatar/parameters/ScaleModified" [.vBool true]]

/-! ### Basic lemmas about the embedding -/

theorem pyEq_refl (v : PValue) : pyEq v v = true := by
  cases v <;> simp [pyEq, PValue.toNum]

theorem setParam_self (p : String → Cell) (k : String) (v : PValue) :
    setParam p k v k = Cell.known v := by
  simp [setParam]

theorem setParam_ne (p : String → Cell) (k n : String) (v : PValue) (h : n ≠ k) :
    setParam p k v n = p n := by
  simp [setParam, h]

theorem setCustom_self (p : String → Option PValue) (k : String) (v : PValue) :
    setCustom p k v k = some v := by
  simp [setCustom]

theorem derive_shape (s : State) :
    ∃ b, (derive_base_height s).1 = { s with base_height := b } := by
  unfold derive_base_height
  repeat' split
  all_goals exact ⟨_, rfl⟩

theorem derive_cfg (s : State) : (derive_base_height s).1.cfg = s.cfg := by
  obtain ⟨b, h⟩ := derive_shape s
  rw [h]

theorem derive_parameters (s : State) :
    (derive_base_height s).1.parameters = s.parameters := by
  obtain ⟨b, h⟩ := derive_shape s
  rw [h]

theorem derive_custom (s : State) :
    (derive_base_height s).1.custom_parameters = s.custom_parameters := by
  obtain ⟨b, h⟩ := derive_shape s
  rw [h]

theorem derive_just_set (s : State) :
    (derive_base_height s).1.just_set = s.just_set := by
  obtain ⟨b, h⟩ := derive_shape s
  rw [h]

theorem derive_tracking (s : State) :
    (derive_base_height s).1.tracking_type = s.tracking_type := by
  obtain ⟨b, h⟩ := derive_shape s
  rw [h]

theorem set_defaults_TrackingType (p : String → Cell) :
    set_defaults p "TrackingType" = p "TrackingType" := rfl

theorem set_defaults_values (p : String → Cell) (kv : String × PValue)
    (h : kv ∈ DEFAULTS_LIST) : set_defaults p kv.1 = Cell.known kv.2 := by
  fin_cases h <;> rfl

theorem trackingStep_cfg (s : State) (e : String) (a : PValue) :
    (trackingStep s e a).1.cfg = s.cfg := by
  unfold trackingStep
  repeat' split
  all_goals rfl

theorem trackingStep_custom (s : State) (e : String) (a : PValue) :
    (trackingStep s e a).1.custom_parameters = s.custom_parameters := by
  unfold trackingStep
  repeat' split
  all_goals rfl

theorem trackingStep_just_set (s : State) (e : String) (a : PValue) :
    (trackingStep s e a).1.just_set = s.just_set := by
  unfold trackingStep
  repeat' split
  all_goals rfl

theorem trackingStep_base (s : State) (e : String) (a : PValue) :
    (trackingStep s e a).1.base_height = s.base_height := by
  unfold trackingStep
  repeat' split
  all_goals rfl

theorem trackingStep_params_point (s : State) (e : String) (a : PValue) :
    (trackingStep s e a).1.parameters e = s.parameters e := by
  unfold trackingStep
  split
  · next he =>
    subst he
    split
    · split
      · exact set_defaults_TrackingType _
      · rfl
    · rfl
  · rfl

theorem trackingStep_events_shape (s : State) (e : String) (a : PValue) :
    (trackingStep s e a).2 = [] ∨
      ((trackingStep s e a).2 = [Event.avatarReset] ∧ e = "TrackingType") := by
  unfold trackingStep
  split
  · next he =>
    split
    · exact Or.inr ⟨rfl, he⟩
    · exact Or.inl rfl
  · exact Or.inl rfl

theorem mem_heightEvents {s : State} {e : String} {a : PValue} {ev : Event}
    (h : ev ∈ heightEvents s e a) :
    ev = Event.heightChange e a ∧ e ∈ ALL_SCALE_PARAMETER_NAMES ∧
      ¬(¬ s.cfg.accurate_scale_polling ∧
        e ∈ ["ScaleModified", "EyeHeightAsMeters", "ScaleFactorInverse", "EyeHeightAsPercent"]) := by
  unfold heightEvents at h
  split at h
  · next hall =>
    split at h
    · simp at h
    · next hcond =>
      simp at h
      exact ⟨h, hall, hcond⟩
  · simp at h

theorem mem_velocityEvents {s : State} {e : String} {ev : Event}
    (h : ev ∈ velocityEvents s e) :
    (∃ x y z, ev = Event.velocityChange x y z) ∧ e ∈ VELOCITY_PARAMETER_NAMES := by
  unfold velocityEvents at h
  split at h
  · next hv =>
    split at h
    · next x y z _ _ _ =>
      simp at h
      exact ⟨⟨x, y, z, h⟩, hv⟩
    · simp at h
  · simp at h

theorem mem_visemeStep_ok {e : String} {a : PValue} {l : List Event} {ev : Event}
    (hok : visemeStep e a = Except.ok l) (h : ev ∈ l) :
    (∃ c, ev = Event.visemeChange c) ∧ e = "Viseme" := by
  unfold visemeStep at hok
  split at hok
  · next he =>
    split at hok
    · next c _ =>
      cases hok
      simp at h
      exact ⟨⟨c, h⟩, he⟩
    · cases hok
  · cases hok
    simp at h

theorem dOf_cfg (c : Prop) [Decidable c] (s1 : State) :
    (if c then derive_base_height s1 else (s1, none)).1.cfg = s1.cfg := by
  split
  · exact derive_cfg s1
  · rfl

theorem dOf_parameters (c : Prop) [Decidable c] (s1 : State) :
    (if c then derive_base_height s1 else (s1, none)).1.parameters = s1.parameters := by
  split
  · exact derive_parameters s1
  · rfl

theorem dOf_custom (c : Prop) [Decidable c] (s1 : State) :
    (if c then derive_base_height s1 else (s1, none)).1.custom_parameters =
      s1.custom_parameters := by
  split
  · exact derive_custom s1
  · rfl

theorem dOf_just_set (c : Prop) [Decidable c] (s1 : State) :
    (if c then derive_base_height s1 else (s1, none)).1.just_set = s1.just_set := by
  split
  · exact derive_just_set s1
  · rfl

theorem processRecognized_cfg (s : State) (e : String) (a : PValue) :
    (processRecognized s e a).state.cfg = s.cfg := by
  unfold processRecognized
  dsimp only
  repeat' split
  all_goals simp [derive_cfg, trackingStep_cfg]

theorem processRecognized_params_point (s : State) (e : String) (a : PValue) :
    (processRecognized s e a).state.parameters e = Cell.known a := by
  unfold processRecognized
  dsimp only
  repeat' split
  all_goals simp [derive_parameters, trackingStep_params_point, setParam_self]

theorem processRecognized_custom (s : State) (e : String) (a : PValue) :
    (processRecognized s e a).state.custom_parameters = s.custom_parameters := by
  unfold processRecognized
  dsimp only
  repeat' split
  all_goals simp [derive_custom, trackingStep_custom]

theorem processCustom_cfg (s : State) (e : String) (a : PValue) :
    (processCustom s e a).state.cfg = s.cfg := by
  unfold processCustom
  dsimp only
  split
  · rfl
  · rfl

theorem processCustom_custom_point (s : State) (e : String) (a : PValue) :
    (processCustom s e a).state.custom_parameters e = some a := by
  unfold processCustom
  dsimp only
  split
  · exact setCustom_self _ _ _
  · exact setCustom_self _ _ _

theorem processCustom_parameters (s : State) (e : String) (a : PValue) :
    (processCustom s e a).state.parameters = s.parameters := by
  unfold processCustom
  dsimp only
  split
  · rfl
  · rfl

theorem processCustom_events (s : State) (e : String) (a : PValue) :
    (processCustom s e a).events =
      [Event.paramChange e a (decide (e ∈ DEFAULT_PARAMETER_NAMES))
        (decide (e ∈ s.just_set))] := by
  unfold processCustom
  dsimp only

theorem dispatchParam_cfg (s : State) (e : String) (a : PValue) :
    (dispatchParam s e a).state.cfg = s.cfg := by
  unfold dispatchParam
  split
  · exact processRecognized_cfg s e a
  · exact processCustom_cfg s e a

theorem dispatchParam_stores (s : State) (e : String) (a : PValue) :
    dupSuppressed (dispatchParam s e a).state e a = true := by
  unfold dupSuppressed dispatchParam
  split
  · rw [processRecognized_params_point]
    simp [cellPyEq, pyEq_refl]
  · rw [processCustom_custom_point]
    simp [optPyEq, pyEq_refl]

theorem mem_events_processRecognized {s : State} {e : String} {a : PValue} {ev : Event}
    (h : ev ∈ (processRecognized s e a).events) : EventsOfEndpoint s e ev := by
  unfold processRecognized at h
  dsimp only at h
  split at h
  · simp at h
  · split at h
    · rcases List.mem_append.mp h with hh | hv
      · obtain ⟨hev, hall, hacc⟩ := mem_heightEvents hh
        refine Or.inr (Or.inl ⟨a, hev, hall, ?_⟩)
        simpa [dOf_cfg] using hacc
      · obtain ⟨hex, hvel⟩ := mem_velocityEvents hv
        exact Or.inr (Or.inr (Or.inl ⟨hex, hvel⟩))
    · next evVis heqVis =>
      simp only [List.mem_append, List.mem_singleton] at h
      rcases h with (((hh | hv) | hvis) | ht) | hp
      · obtain ⟨hev, hall, hacc⟩ := mem_heightEvents hh
        refine Or.inr (Or.inl ⟨a, hev, hall, ?_⟩)
        simpa [dOf_cfg] using hacc
      · obtain ⟨hex, hvel⟩ := mem_velocityEvents hv
        exact Or.inr (Or.inr (Or.inl ⟨hex, hvel⟩))
      · obtain ⟨hex, he⟩ := mem_visemeStep_ok heqVis hvis
        exact Or.inr (Or.inr (Or.inr (Or.inl ⟨hex, he⟩)))
      · rcases trackingStep_events_shape _ e a with hsh | ⟨hsh, he⟩
        · rw [hsh] at ht
          simp at ht
        · rw [hsh] at ht
          simp at ht
          exact Or.inr (Or.inr (Or.inr (Or.inr ⟨ht, he⟩)))
      · exact Or.inl ⟨a, _, _, hp⟩

theorem mem_events_dispatchParam {s : State} {e : String} {a : PValue} {ev : Event}
    (h : ev ∈ (dispatchParam s e a).events) : EventsOfEndpoint s e ev := by
  unfold dispatchParam at h
  split at h
  · exact mem_events_processRecognized h
  · rw [processCustom_events] at h
    simp at h
    exact Or.inl ⟨a, _, _, h⟩

theorem mem_events_handleParameter {s : State} {e : String} {args : List PValue} {ev : Event}
    (h : ev ∈ (handleParameter s e args).events) : EventsOfEndpoint s e ev := by
  unfold handleParameter at h
  dsimp only at h
  split at h
  · simp at h
  · split at h
    · simp at h
    · split at h
      · split at h
        · simp at h
        · exact mem_events_dispatchParam h
      · exact mem_events_dispatchParam h

theorem handleParameter_cfg (s : State) (e : String) (args : List PValue) :
    (handleParameter s e args).state.cfg = s.cfg := by
  unfold handleParameter
  dsimp only
  repeat' split
  all_goals simp [dispatchParam_cfg, processRecognized_cfg, processCustom_cfg]

theorem blacklisted_congr {s1 s2 : State} (e : String) (h : s1.cfg = s2.cfg) :
    blacklisted s1 e = blacklisted s2 e := by
  unfold blacklisted
  rw [h]

theorem handleParameter_float_eval (s : State) (e : String) (q : ℚ)
    (hb : blacklisted s e = false) :
    handleParameter s e [.vFloat q] =
      (if dupSuppressed s e (roundedArg s.cfg.round_floats_to (.vFloat q)) then
        ⟨s, [], none⟩
       else dispatchParam s e (roundedArg s.cfg.round_floats_to (.vFloat q))) := by
  unfold handleParameter
  simp [hb, PValue.isFloat]

theorem handleParameter_nonfloat_eval (s : State) (e : String) (a : PValue)
    (hb : blacklisted s e = false) (hnf : a.isFloat = false) :
    handleParameter s e [a] = dispatchParam s e a := by
  unfold handleParameter
  simp [hb, hnf]

theorem processCustom_full (s : State) (e : String) (a : PValue) :
    processCustom s e a =
      ⟨{ s with custom_parameters := setCustom s.custom_parameters e a,
                just_set := if e ∈ s.just_set then s.just_set.erase e else s.just_set },
        [Event.paramChange e a (decide (e ∈ DEFAULT_PARAMETER_NAMES))
          (decide (e ∈ s.just_set))], none⟩ := by
  unfold processCustom
  dsimp only
  split
  · next h => simp [h]
  · next h => simp [h]

theorem step_inbound (s : State) (addr : String) (args : List PValue) :
    step s (Op.inbound addr args) = handle s addr args := rfl

theorem step_setInt (s : State) (p : String) (v : Int) :
    step s (Op.opSetInt p v) = ⟨(set_int s p v).1, (set_int s p v).2, none⟩ := rfl

theorem step_setFloat (s : State) (p : String) (v : ℚ) :
    step s (Op.opSetFloat p v) = ⟨(set_float s p v).1, (set_float s p v).2, none⟩ := rfl

theorem step_setBool (s : State) (p : String) (v : Bool) :
    step s (Op.opSetBool p v) = ⟨(set_bool s p v).1, (set_bool s p v).2, none⟩ := rfl

theorem run_cons_state (s : State) (op : Op) (ops : List Op) :
    (run s (op :: ops)).1 = (run (step s op).state ops).1 := rfl

theorem run_cons_events (s : State) (op : Op) (ops : List Op) :
    (run s (op :: ops)).2 = (step s op).events ++ (run (step s op).state ops).2 := rfl

/-! ### Claims -/

/-- C1 counterexample: the duplicate filter of `_handle` is nested under
`isinstance(arg, float)`, so a non-float payload is never suppressed —
delivering the integer 5 twice in a row to the same (non-blacklisted)
parameter emits two `on_parameter_change` events, where the claim promises
exactly one. -/
theorem C1_counterexample :
    (run stateDefault
      [Op.inbound "/avatar/parameters/Foo" [.vInt 5],
       Op.inbound "/avatar/parameters/Foo" [.vInt 5]]).2 =
      [Event.paramChange "Foo" (.vInt 5) false false,
       Event.paramChange "Foo" (.vInt 5) false false] := by
  decide

/-- C1 (amended): duplicate suppression applies to float payloads only.
For a float payload on a non-blacklisted endpoint, redelivering the same
value right away is suppressed entirely — same state, no events, no error —
so the same float twice in a row emits exactly one parameter-changed event;
a non-float payload is never suppressed, so the same bool twice in a row
emits two parameter-changed events. -/
theorem C1_float_only_suppression (s : State) (endpoint : String) (q : ℚ)
    (hb : blacklisted s endpoint = false) :
    handleParameter (handleParameter s endpoint [.vFloat q]).state endpoint [.vFloat q] =
      ⟨(handleParameter s endpoint [.vFloat q]).state, [], none⟩ ∧
    ((run stateDefault
      [Op.inbound "/avatar/parameters/Bar" [.vBool true],
       Op.inbound "/avatar/parameters/Bar" [.vBool true]]).2.countP
        Event.isParamChangeB = 2) := by
  refine ⟨?_, by decide⟩
  have e1 := handleParameter_float_eval s endpoint q hb
  by_cases hdup : dupSuppressed s endpoint (roundedArg s.cfg.round_floats_to (.vFloat q)) = true
  · have h1 : (handleParameter s endpoint [.vFloat q]).state = s := by
      rw [e1, if_pos hdup]
    rw [h1, e1, if_pos hdup]
  · have h1 : (handleParameter s endpoint [.vFloat q]).state =
        (dispatchParam s endpoint (roundedArg s.cfg.round_floats_to (.vFloat q))).state := by
      rw [e1, if_neg hdup]
    have hcfg : (handleParameter s endpoint [.vFloat q]).state.cfg = s.cfg :=
      handleParameter_cfg s endpoint [.vFloat q]
    have hb2 : blacklisted (handleParameter s endpoint [.vFloat q]).state endpoint = false := by
      rw [blacklisted_congr endpoint hcfg]
      exact hb
    rw [handleParameter_float_eval _ endpoint q hb2, hcfg, h1,
      if_pos (dispatchParam_stores s endpoint (roundedArg s.cfg.round_floats_to (.vFloat q)))]

/-- C1 witness: the float-suppression half of the amended theorem at a
concrete input. -/
theorem C1_witness :
    blacklisted stateDefault "Foo" = false ∧
    handleParameter (handleParameter stateDefault "Foo" [.vFloat (1/2)]).state
        "Foo" [.vFloat (1/2)] =
      ⟨(handleParameter stateDefault "Foo" [.vFloat (1/2)]).state, [], none⟩ :=
  ⟨by decide, (C1_float_only_suppression stateDefault "Foo" (1/2) (by decide)).1⟩

/-- C2 counterexample, two failure modes of the claim.  First: after
`set_float("Foo", 0.5)` the exact echo of 0.5 arriving inbound is caught by
the float duplicate filter (the stored value already equals it): no
parameter-changed event fires at all — the observation is not marked
self-set — and the `_just_set` marker is NOT cleared, contradicting "clears
the marker on that next inbound observation ... whether or not the value
matches".  Second: after `set_int("Viseme", 99)` the exact echo raises
`ValueError` in `Viseme(...)` before `on_parameter_change` is reached: no
self-set event, and the marker again survives. -/
theorem C2_counterexample :
    ((handle (set_float stateDefault "Foo" (1/2)).1 "/avatar/parameters/Foo"
        [.vFloat (1/2)]).events = [] ∧
     (handle (set_float stateDefault "Foo" (1/2)).1 "/avatar/parameters/Foo"
        [.vFloat (1/2)]).state.just_set = ["Foo"]) ∧
    ((handle (set_int stateDefault "Viseme" 99).1 "/avatar/parameters/Viseme"
        [.vInt 99]).events = [] ∧
     (handle (set_int stateDefault "Viseme" 99).1 "/avatar/parameters/Viseme"
        [.vInt 99]).err = some HErr.visemeError ∧
     (handle (set_int stateDefault "Viseme" 99).1 "/avatar/parameters/Viseme"
        [.vInt 99]).state.just_set = ["Viseme"]) := by
  decide

theorem roundtrip_nonfloat_aux (s : State) (p : String) (v : PValue)
    (hv : v.isFloat = false)
    (hd : p ∉ DEFAULT_PARAMETER_NAMES) (hj : p ∉ s.just_set)
    (hb : blacklisted s p = false) :
    (handleParameter (update_parameter s p v).1 p [v]).events =
        [Event.paramChange p v false true] ∧
    (handleParameter (update_parameter s p v).1 p [v]).state.just_set = s.just_set ∧
    (handleParameter (handleParameter (update_parameter s p v).1 p [v]).state
        p [v]).events =
      [Event.paramChange p v false false] := by
  have hs1 : (update_parameter s p v).1 =
      { s with custom_parameters := setCustom s.custom_parameters p v,
               just_set := s.just_set ++ [p] } := by
    unfold update_parameter
    rw [if_neg hd]
  have hmem : p ∈ s.just_set ++ [p] := by simp
  have herase : (s.just_set ++ [p]).erase p = s.just_set := by
    rw [List.erase_append_right _ hj, List.erase_cons_head, List.append_nil]
  have hb1 : blacklisted (update_parameter s p v).1 p = false := by
    rw [blacklisted_congr p (show (update_parameter s p v).1.cfg = s.cfg by rw [hs1])]
    exact hb
  have hr2 : handleParameter (update_parameter s p v).1 p [v] =
      processCustom (update_parameter s p v).1 p v := by
    rw [handleParameter_nonfloat_eval _ _ v hb1 hv]
    unfold dispatchParam
    rw [if_neg hd]
  have hev2 : (handleParameter (update_parameter s p v).1 p [v]).events =
      [Event.paramChange p v false true] := by
    rw [hr2, hs1, processCustom_full]
    simp [hd, hmem]
  have hjs2 : (handleParameter (update_parameter s p v).1 p [v]).state.just_set =
      s.just_set := by
    rw [hr2, hs1, processCustom_full]
    dsimp only
    rw [if_pos hmem, herase]
  refine ⟨hev2, hjs2, ?_⟩
  have hb2 : blacklisted (handleParameter (update_parameter s p v).1 p [v]).state p = false := by
    rw [blacklisted_congr p
      (show (handleParameter (update_parameter s p v).1 p [v]).state.cfg = s.cfg by
        rw [handleParameter_cfg, hs1])]
    exact hb
  rw [handleParameter_nonfloat_eval _ _ v hb2 hv]
  unfold dispatchParam
  rw [if_neg hd, processCustom_full]
  simp [hd, hjs2, hj]

/-- C2 (amended): for an outbound set on a custom (non-recognized),
non-blacklisted parameter, the round trip behaves as claimed whenever the
echo survives the float duplicate filter: the echo of a `set_int` or
`set_bool` value fires exactly one parameter-changed event with
self-set = true, that observation clears the marker, and a subsequent
inbound observation of the same value is self-set = false; a `set_float`
echo whose value changes under the configured rounding likewise fires one
self-set = true event and clears the marker.  Otherwise the claim fails: a
float echo equal (after rounding) to the stored value is suppressed by the
change filter — no event, marker left in place — and a recognized-name echo
can raise before the parameter-changed event (an out-of-range `Viseme`
value), also leaving the marker set (see the counterexample). -/
theorem C2_roundtrip_custom (s : State) (p : String) (v : Int) (bv : Bool) (q : ℚ)
    (hd : p ∉ DEFAULT_PARAMETER_NAMES) (hj : p ∉ s.just_set)
    (hb : blacklisted s p = false)
    (hq : roundQ s.cfg.round_floats_to q ≠ q) :
    ((handleParameter (set_int s p v).1 p [.vInt v]).events =
        [Event.paramChange p (.vInt v) false true] ∧
     (handleParameter (set_int s p v).1 p [.vInt v]).state.just_set = s.just_set ∧
     (handleParameter (handleParameter (set_int s p v).1 p [.vInt v]).state
        p [.vInt v]).events =
       [Event.paramChange p (.vInt v) false false]) ∧
    ((handleParameter (set_bool s p bv).1 p [.vBool bv]).events =
        [Event.paramChange p (.vBool bv) false true] ∧
     (handleParameter (set_bool s p bv).1 p [.vBool bv]).state.just_set = s.just_set ∧
     (handleParameter (handleParameter (set_bool s p bv).1 p [.vBool bv]).state
        p [.vBool bv]).events =
       [Event.paramChange p (.vBool bv) false false]) ∧
    ((handleParameter (set_float s p q).1 p [.vFloat q]).events =
        [Event.paramChange p (.vFloat (roundQ s.cfg.round_floats_to q)) false true] ∧
     (handleParameter (set_float s p q).1 p [.vFloat q]).state.just_set = s.just_set) := by
  refine ⟨roundtrip_nonfloat_aux s p (.vInt v) rfl hd hj hb,
    roundtrip_nonfloat_aux s p (.vBool bv) rfl hd hj hb, ?_⟩
  have hs1 : (set_float s p q).1 =
      { s with custom_parameters := setCustom s.custom_parameters p (.vFloat q),
               just_set := s.just_set ++ [p] } := by
    unfold set_float update_parameter
    rw [if_neg hd]
  have hmem : p ∈ s.just_set ++ [p] := by simp
  have herase : (s.just_set ++ [p]).erase p = s.just_set := by
    rw [List.erase_append_right _ hj, List.erase_cons_head, List.append_nil]
  have hb1 : blacklisted (set_float s p q).1 p = false := by
    rw [blacklisted_congr p (show (set_float s p q).1.cfg = s.cfg by rw [hs1])]
    exact hb
  have hdup : dupSuppressed (set_float s p q).1 p
      (.vFloat (roundQ s.cfg.round_floats_to q)) = false := by
    rw [hs1]
    unfold dupSuppressed
    rw [if_neg hd]
    show optPyEq (setCustom s.custom_parameters p (.vFloat q) p)
      (.vFloat (roundQ s.cfg.round_floats_to q)) = false
    rw [setCustom_self]
    simp only [optPyEq, pyEq, PValue.toNum]
    exact decide_eq_false (fun hcontra => hq hcontra.symm)
  have hr2 : handleParameter (set_float s p q).1 p [.vFloat q] =
      processCustom (set_float s p q).1 p (.vFloat (roundQ s.cfg.round_floats_to q)) := by
    rw [handleParameter_float_eval _ p q hb1]
    rw [show roundedArg (set_float s p q).1.cfg.round_floats_to (.vFloat q) =
        .vFloat (roundQ (set_float s p q).1.cfg.round_floats_to q) from rfl]
    rw [show (set_float s p q).1.cfg.round_floats_to = s.cfg.round_floats_to by rw [hs1]]
    rw [if_neg (by rw [hdup]; exact Bool.false_ne_true)]
    unfold dispatchParam
    rw [if_neg hd]
  constructor
  · rw [hr2, hs1, processCustom_full]
    simp [hd, hmem]
  · rw [hr2, hs1, processCustom_full]
    dsimp only
    rw [if_pos hmem, herase]

/-- C2 witness: the amended round trip at concrete inputs — an int set, a
bool set, and a float set whose value changes under the default rounding
(0.12345 rounds to 0.123). -/
theorem C2_witness :
    ("Foo" ∉ DEFAULT_PARAMETER_NAMES ∧ "Foo" ∉ stateDefault.just_set ∧
      blacklisted stateDefault "Foo" = false ∧
      roundQ stateDefault.cfg.round_floats_to (12345/100000) ≠ 12345/100000) ∧
    (handleParameter (set_int stateDefault "Foo" 7).1 "Foo" [.vInt 7]).events =
      [Event.paramChange "Foo" (.vInt 7) false true] ∧
    (handleParameter (set_bool stateDefault "Foo" true).1 "Foo" [.vBool true]).events =
      [Event.paramChange "Foo" (.vBool true) false true] ∧
    (handleParameter (set_float stateDefault "Foo" (12345/100000)).1 "Foo"
        [.vFloat (12345/100000)]).events =
      [Event.paramChange "Foo"
        (.vFloat (roundQ stateDefault.cfg.round_floats_to (12345/100000))) false true] :=
  ⟨⟨by decide, by decide, by decide, by decide⟩,
   (C2_roundtrip_custom stateDefault "Foo" 7 true (12345/100000)
      (by decide) (by decide) (by decide) (by decide)).1.1,
   (C2_roundtrip_custom stateDefault "Foo" 7 true (12345/100000)
      (by decide) (by decide) (by decide) (by decide)).2.1.1,
   (C2_roundtrip_custom stateDefault "Foo" 7 true (12345/100000)
      (by decide) (by decide) (by decide) (by decide)).2.2.1⟩

theorem processRecognized_TT_events (s : State) (a : PValue) :
    (processRecognized s "TrackingType" a).events =
      (trackingStep { s with parameters := setParam s.parameters "TrackingType" a }
          "TrackingType" a).2 ++
        [Event.paramChange "TrackingType" a true (decide ("TrackingType" ∈ s.just_set))] := by
  unfold processRecognized
  dsimp only
  rw [if_neg (fun h => absurd h.1 (by decide))]
  simp [visemeStep, heightEvents, velocityEvents, ALL_SCALE_PARAMETER_NAMES,
    VELOCITY_PARAMETER_NAMES, DEFAULT_PARAMETER_NAMES, trackingStep_just_set]

theorem processRecognized_TT_params (s : State) (a : PValue) :
    (processRecognized s "TrackingType" a).state.parameters =
      (trackingStep { s with parameters := setParam s.parameters "TrackingType" a }
          "TrackingType" a).1.parameters := by
  unfold processRecognized
  dsimp only
  rw [if_neg (fun h => absurd h.1 (by decide))]
  dsimp only
  split
  · next heq => simp [visemeStep] at heq
  · split
    · rfl
    · rfl

theorem handleParameter_TT (s : State) (a : PValue)
    (hb : blacklisted s "TrackingType" = false) (hnf : a.isFloat = false) :
    handleParameter s "TrackingType" [a] = processRecognized s "TrackingType" a := by
  rw [handleParameter_nonfloat_eval _ _ a hb hnf]
  unfold dispatchParam
  rw [if_pos (show ("TrackingType" : String) ∈ DEFAULT_PARAMETER_NAMES by decide)]

/-- C3 counterexample: `_on_avatar_reset` invokes `on_avatar_reset`
unconditionally; the forms-membership test only gates the reset to default
parameters.  On a fresh engine whose forms set is empty (so the current
actor, `None`, is certainly not a member), TrackingType 2 followed by
TrackingType 3 still fires an actor-reset event, where the claim says none
may fire. -/
theorem C3_counterexample :
    currentInForms
        (run stateDefault [Op.inbound "/avatar/parameters/TrackingType" [.vInt 2]]).1 = false ∧
    (run stateDefault
      [Op.inbound "/avatar/parameters/TrackingType" [.vInt 2],
       Op.inbound "/avatar/parameters/TrackingType" [.vInt 3]]).2.countP Event.isResetB = 1 := by
  decide

/-- C3 (amended): the actor-reset event is emitted exactly on a
tracking-mode transition away from `AV2_HANDS_ONLY`, regardless of whether
the current actor is in the forms set: such a transition fires exactly one
actor-reset and no actor-changed event, and the reset of the parameter
table to baseline defaults (not the event itself) is what is gated on forms
membership together with the baseline-assumption flag; without the
transition edge, and for every other endpoint, no actor-reset fires. -/
theorem C3_reset_edge (s : State) (k : Int)
    (hb : blacklisted s "TrackingType" = false) (hk : k ≠ 2) :
    (pyEqOptInt s.tracking_type AV2_HANDS_ONLY = true →
      (handleParameter s "TrackingType" [.vInt k]).events.countP Event.isResetB = 1 ∧
      (handleParameter s "TrackingType" [.vInt k]).events.countP Event.isChangeB = 0 ∧
      ((currentInForms s = true ∧ s.cfg.assume_base_state = true) →
        ∀ kv ∈ DEFAULTS_LIST,
          (handleParameter s "TrackingType" [.vInt k]).state.parameters kv.1 =
            Cell.known kv.2)) ∧
    (pyEqOptInt s.tracking_type AV2_HANDS_ONLY = false →
      (handleParameter s "TrackingType" [.vInt k]).events.countP Event.isResetB = 0) ∧
    (∀ e args, e ≠ "TrackingType" →
      (handleParameter s e args).events.countP Event.isResetB = 0) := by
  have hpy : pyEq (.vInt k) (.vInt AV2_HANDS_ONLY) = false := by
    simp [pyEq, PValue.toNum, AV2_HANDS_ONLY]
    exact_mod_cast hk
  have heval := handleParameter_TT s (.vInt k) hb rfl
  refine ⟨?_, ?_, ?_⟩
  · intro hedge
    have hedge' : (pyEqOptInt s.tracking_type AV2_HANDS_ONLY
        && ! pyEq (.vInt k) (.vInt AV2_HANDS_ONLY)) = true := by
      rw [hedge, hpy]
      rfl
    have htr : (trackingStep { s with parameters := setParam s.parameters "TrackingType" (.vInt k) }
        "TrackingType" (.vInt k)).2 = [Event.avatarReset] := by
      unfold trackingStep
      rw [if_pos rfl, if_pos hedge']
    refine ⟨?_, ?_, ?_⟩
    · rw [heval, processRecognized_TT_events, htr]
      simp [Event.isResetB]
    · rw [heval, processRecognized_TT_events, htr]
      simp [Event.isResetB, Event.isChangeB]
    · intro hfa kv hkv
      have hfa' : (currentInForms { s with parameters := setParam s.parameters "TrackingType" (.vInt k) }
          && ({ s with parameters := setParam s.parameters "TrackingType" (.vInt k) } : State).cfg.assume_base_state) = true := by
        unfold currentInForms
        unfold currentInForms at hfa
        rw [hfa.1, hfa.2]
        rfl
      have hpar : (trackingStep { s with parameters := setParam s.parameters "TrackingType" (.vInt k) }
          "TrackingType" (.vInt k)).1.parameters =
          set_defaults (setParam s.parameters "TrackingType" (.vInt k)) := by
        unfold trackingStep
        rw [if_pos rfl, if_pos hedge', if_pos hfa']
      rw [heval, processRecognized_TT_params, hpar]
      exact set_defaults_values _ kv hkv
  · intro hedge
    have hedge' : (pyEqOptInt s.tracking_type AV2_HANDS_ONLY
        && ! pyEq (.vInt k) (.vInt AV2_HANDS_ONLY)) = false := by
      rw [hedge]
      rfl
    have htr : (trackingStep { s with parameters := setParam s.parameters "TrackingType" (.vInt k) }
        "TrackingType" (.vInt k)).2 = [] := by
      unfold trackingStep
      rw [if_pos rfl, if_neg (by rw [hedge']; exact Bool.false_ne_true)]
    rw [heval, processRecognized_TT_events, htr]
    simp [Event.isResetB]
  · intro e args he
    rw [List.countP_eq_zero]
    intro ev hev hres
    rcases mem_events_handleParameter hev with
      ⟨v, c, b, h⟩ | ⟨v, h, _, _⟩ | ⟨⟨x, y, z, h⟩, _⟩ | ⟨⟨c, h⟩, _⟩ | ⟨h, he2⟩
    · subst h; simp [Event.isResetB] at hres
    · subst h; simp [Event.isResetB] at hres
    · subst h; simp [Event.isResetB] at hres
    · subst h; simp [Event.isResetB] at hres
    · exact he he2

/-- C3 witness: the amended theorem at a concrete input — a fresh engine
with no forms that has seen TrackingType 2. -/
theorem C3_witness :
    (blacklisted (run stateDefault [Op.inbound "/avatar/parameters/TrackingType" [.vInt 2]]).1
        "TrackingType" = false ∧ (3 : Int) ≠ 2 ∧
      pyEqOptInt (run stateDefault [Op.inbound "/avatar/parameters/TrackingType" [.vInt 2]]).1.tracking_type
        AV2_HANDS_ONLY = true) ∧
    (handleParameter (run stateDefault [Op.inbound "/avatar/parameters/TrackingType" [.vInt 2]]).1
        "TrackingType" [.vInt 3]).events.countP Event.isResetB = 1 :=
  ⟨⟨by decide, by decide, by decide⟩,
   ((C3_reset_edge (run stateDefault [Op.inbound "/avatar/parameters/TrackingType" [.vInt 2]]).1 3
      (by decide) (by decide)).1 (by decide)).1⟩

/-- C4 counterexample: `VELOCITY_PARAMETER_NAMES` contains a fourth name,
`VelocityMagnitude`.  With all three axes Known, a single update to
`VelocityMagnitude` — a parameter outside the three axes — fires a
velocity-changed event, which the claim says cannot happen. -/
theorem C4_counterexample :
    ("VelocityMagnitude" ∉ ["VelocityX", "VelocityY", "VelocityZ"]) ∧
    (handle (run stateNoAssume
        [Op.inbound "/avatar/parameters/VelocityX" [.vFloat (1/10)],
         Op.inbound "/avatar/parameters/VelocityY" [.vFloat (1/5)],
         Op.inbound "/avatar/parameters/VelocityZ" [.vFloat (3/10)]]).1
      "/avatar/parameters/VelocityMagnitude" [.vFloat (1/2)]).events.countP
        Event.isVelocityB = 1 := by
  decide

/-- C4 (amended): the velocity-changed event fires exactly when one of the
FOUR velocity-related parameters (`VelocityX`, `VelocityY`, `VelocityZ`,
and also `VelocityMagnitude`) is updated while all three axis values are
Known after the update.  No update to a parameter outside these four ever
fires a velocity event; from a fresh engine without assumed defaults,
observing X then Y produces zero velocity events, observing Z third
produces exactly one, and a subsequent `VelocityMagnitude` update produces
a second one. -/
theorem C4_velocity_gate (s : State) :
    (∀ e args, e ∉ VELOCITY_PARAMETER_NAMES →
      (handleParameter s e args).events.countP Event.isVelocityB = 0) ∧
    (run stateNoAssume
      [Op.inbound "/avatar/parameters/VelocityX" [.vFloat (1/10)],
       Op.inbound "/avatar/parameters/VelocityY" [.vFloat (1/5)]]).2.countP
        Event.isVelocityB = 0 ∧
    (run stateNoAssume
      [Op.inbound "/avatar/parameters/VelocityX" [.vFloat (1/10)],
       Op.inbound "/avatar/parameters/VelocityY" [.vFloat (1/5)],
       Op.inbound "/avatar/parameters/VelocityZ" [.vFloat (3/10)]]).2.countP
        Event.isVelocityB = 1 ∧
    (run stateNoAssume
      [Op.inbound "/avatar/parameters/VelocityX" [.vFloat (1/10)],
       Op.inbound "/avatar/parameters/VelocityY" [.vFloat (1/5)],
       Op.inbound "/avatar/parameters/VelocityZ" [.vFloat (3/10)],
       Op.inbound "/avatar/parameters/VelocityMagnitude" [.vFloat (1/2)]]).2.countP
        Event.isVelocityB = 2 := by
  refine ⟨?_, by decide, by decide, by decide⟩
  intro e args he
  rw [List.countP_eq_zero]
  intro ev hev hvel
  rcases mem_events_handleParameter hev with
    ⟨v, c, b, h⟩ | ⟨v, h, _, _⟩ | ⟨⟨x, y, z, h⟩, hmem⟩ | ⟨⟨c, h⟩, _⟩ | ⟨h, _⟩
  · subst h; simp [Event.isVelocityB] at hvel
  · subst h; simp [Event.isVelocityB] at hvel
  · exact he hmem
  · subst h; simp [Event.isVelocityB] at hvel
  · subst h; simp [Event.isVelocityB] at hvel

/-- C4 witness: the general no-velocity-event conjunct of the amended
theorem at a concrete input. -/
theorem C4_witness :
    ("Voice" ∉ VELOCITY_PARAMETER_NAMES) ∧
    (handleParameter stateDefault "Voice" [.vInt 1]).events.countP
      Event.isVelocityB = 0 :=
  ⟨by decide, (C4_velocity_gate stateDefault).1 "Voice" [.vInt 1] (by decide)⟩

theorem derive_eval (s : State) (h0 f : ℚ)
    (heh : s.parameters "EyeHeightAsMeters" = Cell.known (.vFloat h0))
    (hsf : s.parameters "ScaleFactor" = Cell.known (.vFloat f))
    (hf : f ≠ 0) :
    (derive_base_height s).2 = none ∧
    (derive_base_height s).1.base_height =
      some (if s.parameters "ScaleModified" = Cell.known (.vBool false) ∨ f = 1
            then pyRound h0 3 else pyRound (h0 / f) 3) := by
  unfold derive_base_height
  rw [if_pos (by simp [SCALE_PARAMETER_NAMES, heh, hsf])]
  rw [heh, hsf]
  dsimp only [PValue.toNum]
  by_cases hc : s.parameters "ScaleModified" = Cell.known (.vBool false) ∨ f = 1
  · have hcb : (decide (s.parameters "ScaleModified" = Cell.known (.vBool false)) ||
        cellPyEq (Cell.known (.vFloat f)) (.vFloat 1)) = true := by
      rcases hc with hc | hc
      · simp [hc]
      · simp [cellPyEq, pyEq, PValue.toNum, hc]
    rw [if_pos hcb, if_pos hc]
    exact ⟨rfl, rfl⟩
  · have hcb : (decide (s.parameters "ScaleModified" = Cell.known (.vBool false)) ||
        cellPyEq (Cell.known (.vFloat f)) (.vFloat 1)) = false := by
      push_neg at hc
      simp [cellPyEq, pyEq, PValue.toNum, hc.1, hc.2]
    rw [if_neg (by rw [hcb]; exact Bool.false_ne_true), if_neg hc, if_neg hf]
    exact ⟨rfl, rfl⟩

theorem processRecognized_base (s : State) (e : String) (a : PValue) :
    (processRecognized s e a).state.base_height =
      (if e ∈ SCALE_PARAMETER_NAMES ∧ s.base_height = none then
        derive_base_height { s with parameters := setParam s.parameters e a }
       else ({ s with parameters := setParam s.parameters e a }, none)).1.base_height := by
  unfold processRecognized
  dsimp only
  repeat' split
  all_goals simp_all [trackingStep_base]

theorem processRecognized_err (s : State) (e : String) (a : PValue)
    (he : e ≠ "Viseme") :
    (processRecognized s e a).err =
      (if e ∈ SCALE_PARAMETER_NAMES ∧ s.base_height = none then
        derive_base_height { s with parameters := setParam s.parameters e a }
       else ({ s with parameters := setParam s.parameters e a }, none)).2 := by
  unfold processRecognized
  dsimp only
  repeat' split
  all_goals simp_all [visemeStep]

/-- C5: when the two scale constituents first become Known while no baseline
is set (here: `ScaleFactor` already Known, `EyeHeightAsMeters` still
unfetched, and its first value arrives), the handler derives the baseline
without error as: if the `ScaleModified` boolean is Known and false, or the
scale factor equals exactly 1.0, the (rounded) incoming absolute height
directly; otherwise that height divided by the scale factor — in both
cases rounded to 3 decimal places. -/
theorem C5_base_height_derivation (s : State) (h f : ℚ)
    (hb : blacklisted s "EyeHeightAsMeters" = false)
    (hbase : s.base_height = none)
    (hsf : s.parameters "ScaleFactor" = Cell.known (.vFloat f))
    (heh : s.parameters "EyeHeightAsMeters" = Cell.unfetched)
    (hf : f ≠ 0) :
    (handleParameter s "EyeHeightAsMeters" [.vFloat h]).err = none ∧
    (handleParameter s "EyeHeightAsMeters" [.vFloat h]).state.base_height =
      some (if s.parameters "ScaleModified" = Cell.known (.vBool false) ∨ f = 1
            then pyRound (roundQ s.cfg.round_floats_to h) 3
            else pyRound (roundQ s.cfg.round_floats_to h / f) 3) := by
  have hdup : dupSuppressed s "EyeHeightAsMeters"
      (.vFloat (roundQ s.cfg.round_floats_to h)) = false := by
    unfold dupSuppressed
    rw [if_pos (show ("EyeHeightAsMeters" : String) ∈ DEFAULT_PARAMETER_NAMES by decide), heh]
    rfl
  have heval : handleParameter s "EyeHeightAsMeters" [.vFloat h] =
      processRecognized s "EyeHeightAsMeters" (.vFloat (roundQ s.cfg.round_floats_to h)) := by
    rw [handleParameter_float_eval s _ h hb]
    rw [show roundedArg s.cfg.round_floats_to (.vFloat h) =
        .vFloat (roundQ s.cfg.round_floats_to h) from rfl]
    rw [if_neg (by rw [hdup]; exact Bool.false_ne_true)]
    unfold dispatchParam
    rw [if_pos (show ("EyeHeightAsMeters" : String) ∈ DEFAULT_PARAMETER_NAMES by decide)]
  have hs1eh : setParam s.parameters "EyeHeightAsMeters"
      (.vFloat (roundQ s.cfg.round_floats_to h)) "EyeHeightAsMeters" =
      Cell.known (.vFloat (roundQ s.cfg.round_floats_to h)) := setParam_self _ _ _
  have hs1sf : setParam s.parameters "EyeHeightAsMeters"
      (.vFloat (roundQ s.cfg.round_floats_to h)) "ScaleFactor" =
      Cell.known (.vFloat f) := by
    rw [setParam_ne _ _ _ _ (by decide)]
    exact hsf
  have hder := derive_eval { s with parameters := setParam s.parameters "EyeHeightAsMeters" (.vFloat (roundQ s.cfg.round_floats_to h)) } (roundQ s.cfg.round_floats_to h) f hs1eh hs1sf hf
  have hsm : setParam s.parameters "EyeHeightAsMeters"
      (.vFloat (roundQ s.cfg.round_floats_to h)) "ScaleModified" =
      s.parameters "ScaleModified" := setParam_ne _ _ _ _ (by decide)
  constructor
  · rw [heval, processRecognized_err _ _ _ (by decide),
      if_pos ⟨show ("EyeHeightAsMeters" : String) ∈ SCALE_PARAMETER_NAMES by decide, hbase⟩]
    exact hder.1
  · rw [heval, processRecognized_base,
      if_pos ⟨show ("EyeHeightAsMeters" : String) ∈ SCALE_PARAMETER_NAMES by decide, hbase⟩]
    rw [hder.2]
    dsimp only
    rw [hsm]

/-- C5 witness: the derivation at a concrete input — `ScaleFactor = 0.5`
observed first, then `EyeHeightAsMeters = 0.8`, giving baseline
`0.8 / 0.5 = 1.6`. -/
theorem C5_witness :
    (handleParameter
        (run stateNoAssume [Op.inbound "/avatar/parameters/ScaleFactor" [.vFloat (1/2)]]).1
        "EyeHeightAsMeters" [.vFloat (4/5)]).state.base_height =
      some (if (run stateNoAssume [Op.inbound "/avatar/parameters/ScaleFactor" [.vFloat (1/2)]]).1.parameters
              "ScaleModified" = Cell.known (.vBool false) ∨ (1/2 : ℚ) = 1
            then pyRound (roundQ (run stateNoAssume [Op.inbound "/avatar/parameters/ScaleFactor" [.vFloat (1/2)]]).1.cfg.round_floats_to (4/5)) 3
            else pyRound (roundQ (run stateNoAssume [Op.inbound "/avatar/parameters/ScaleFactor" [.vFloat (1/2)]]).1.cfg.round_floats_to (4/5) / (1/2)) 3) :=
  (C5_base_height_derivation
    (run stateNoAssume [Op.inbound "/avatar/parameters/ScaleFactor" [.vFloat (1/2)]]).1
    (4/5) (1/2) (by decide) (by decide) (by decide) (by decide) (by decide)).2

theorem dispatchParam_base_some (s : State) (e : String) (a : PValue) (b : ℚ)
    (h : s.base_height = some b) :
    (dispatchParam s e a).state.base_height = some b := by
  unfold dispatchParam
  split
  · rw [processRecognized_base, if_neg (fun hc => by simp [h] at hc)]
    exact h
  · rw [processCustom_full]
    exact h

theorem handleParameter_base_some (s : State) (e : String) (args : List PValue)
    (b : ℚ) (h : s.base_height = some b) :
    (handleParameter s e args).state.base_height = some b := by
  unfold handleParameter
  dsimp only
  repeat' split
  all_goals first
    | exact h
    | exact dispatchParam_base_some _ _ _ _ h

theorem update_parameter_base (s : State) (p : String) (v : PValue) :
    (update_parameter s p v).1.base_height = s.base_height := by
  unfold update_parameter
  split
  · rfl
  · rfl

theorem step_base_some (s : State) (op : Op) (b : ℚ) (h : s.base_height = some b) :
    (step s op).state.base_height = some b := by
  cases op with
  | inbound addr args =>
    rw [step_inbound]
    unfold handle
    dsimp only
    repeat' split
    all_goals first
      | exact h
      | exact handleParameter_base_some _ _ _ _ h
  | opSetInt p v =>
    rw [step_setInt]
    exact (update_parameter_base s p (.vInt v)).trans h
  | opSetFloat p v =>
    rw [step_setFloat]
    exact (update_parameter_base s p (.vFloat v)).trans h
  | opSetBool p v =>
    rw [step_setBool]
    exact (update_parameter_base s p (.vBool v)).trans h

/-- C6: once `base_height` is set, it is never recomputed or changed by any
subsequent operation — inbound parameter updates (in particular further
scale-factor updates), avatar changes, and outbound sets all preserve it,
because the derivation runs only under the guard `base_height is None`. -/
theorem C6_base_height_stable (s : State) (b : ℚ) (ops : List Op)
    (h : s.base_height = some b) :
    (run s ops).1.base_height = some b := by
  induction ops generalizing s with
  | nil => exact h
  | cons op rest ih =>
    rw [run_cons_state]
    exact ih _ (step_base_some s op b h)

/-- C6 witness: an engine constructed with a default height keeps it across
further scale-factor updates. -/
theorem C6_witness :
    (initState none (some (3/2)) [] [] true false [] (some 3)).base_height = some (3/2) ∧
    (run (initState none (some (3/2)) [] [] true false [] (some 3))
      [Op.inbound "/avatar/parameters/ScaleFactor" [.vFloat (1/2)],
       Op.inbound "/avatar/parameters/EyeHeightAsMeters" [.vFloat (4/5)],
       Op.inbound "/avatar/parameters/ScaleFactor" [.vFloat (1/4)]]).1.base_height =
      some (3/2) :=
  ⟨by decide, C6_base_height_stable _ (3/2) _ (by decide)⟩

/-- C7: in authoritative-only mode (`accurate_scale_polling = False`), a
processed parameter update delivers a height-changed event only when the
endpoint is `ScaleFactor`; concretely, five inbound updates, one to each of
the five scale-related names, deliver exactly one height-changed event,
and it is `ScaleFactor`'s.  With `accurate_scale_polling = True`, the same
five updates deliver five height-changed events. -/
theorem C7_height_mode (s : State) :
    (s.cfg.accurate_scale_polling = false →
      ∀ e args, e ≠ "ScaleFactor" →
        (handleParameter s e args).events.countP Event.isHeightB = 0) ∧
    ((run stateNoAssume scaleMsgs).2.countP Event.isHeightB = 1 ∧
     (run stateNoAssume scaleMsgs).2.filter Event.isHeightB =
       [Event.heightChange "ScaleFactor" (.vFloat (1/2))]) ∧
    (run stateAccurate scaleMsgs).2.countP Event.isHeightB = 5 := by
  refine ⟨?_, by decide, by decide⟩
  intro hacc e args he
  rw [List.countP_eq_zero]
  intro ev hev hh
  rcases mem_events_handleParameter hev with
    ⟨v, c, b, heq⟩ | ⟨v, heq, hall, hnc⟩ | ⟨⟨x, y, z, heq⟩, _⟩ | ⟨⟨c, heq⟩, _⟩ | ⟨heq, _⟩
  · subst heq; simp [Event.isHeightB] at hh
  · have h4 : e ∉ ["ScaleModified", "EyeHeightAsMeters", "ScaleFactorInverse",
        "EyeHeightAsPercent"] := fun hin => hnc ⟨by simp [hacc], hin⟩
    simp only [ALL_SCALE_PARAMETER_NAMES, List.mem_cons, List.mem_singleton] at hall
    rcases hall with h1 | h1 | h1 | h1 | h1
    · exact he h1
    · exact absurd (by rw [h1]; decide) h4
    · exact absurd (by rw [h1]; decide) h4
    · exact absurd (by rw [h1]; decide) h4
    · rcases h1 with h1 | h1
      · exact absurd (by rw [h1]; decide) h4
      · simp at h1
  · subst heq; simp [Event.isHeightB] at hh
  · subst heq; simp [Event.isHeightB] at hh
  · subst heq; simp [Event.isHeightB] at hh

/-- C7 witness: the authoritative-only conjunct at a concrete input — an
`EyeHeightAsPercent` update in non-accurate mode delivers no height
event. -/
theorem C7_witness :
    (stateNoAssume.cfg.accurate_scale_polling = false ∧
      "EyeHeightAsPercent" ≠ "ScaleFactor") ∧
    (handleParameter stateNoAssume "EyeHeightAsPercent" [.vFloat (1/4)]).events.countP
      Event.isHeightB = 0 :=
  ⟨⟨by decide, by decide⟩,
   (C7_height_mode stateNoAssume).1 (by decide) "EyeHeightAsPercent" [.vFloat (1/4)]
     (by decide)⟩

theorem inv_params_setParam {p : String → Cell}
    (hp : ∀ n, p n ≠ Cell.absent ↔ n ∈ DEFAULT_PARAMETER_NAMES)
    (k : String) (hk : k ∈ DEFAULT_PARAMETER_NAMES) (v : PValue) :
    ∀ n, setParam p k v n ≠ Cell.absent ↔ n ∈ DEFAULT_PARAMETER_NAMES := by
  intro n
  unfold setParam
  by_cases hn : n = k
  · subst hn
    simp [hk]
  · rw [if_neg hn]
    exact hp n

theorem inv_params_fold (l : List (String × PValue)) (p : String → Cell)
    (hl : ∀ kv ∈ l, kv.1 ∈ DEFAULT_PARAMETER_NAMES)
    (hp : ∀ n, p n ≠ Cell.absent ↔ n ∈ DEFAULT_PARAMETER_NAMES) :
    ∀ n, (l.foldl (fun acc kv => setParam acc kv.1 kv.2) p) n ≠ Cell.absent ↔
      n ∈ DEFAULT_PARAMETER_NAMES := by
  induction l generalizing p with
  | nil => exact hp
  | cons kv rest ih =>
    simp only [List.foldl_cons]
    exact ih _ (fun kv2 h2 => hl kv2 (List.mem_cons_of_mem _ h2))
      (inv_params_setParam hp kv.1 (hl kv (List.mem_cons_self _ _)) kv.2)

theorem inv_params_set_defaults {p : String → Cell}
    (hp : ∀ n, p n ≠ Cell.absent ↔ n ∈ DEFAULT_PARAMETER_NAMES) :
    ∀ n, set_defaults p n ≠ Cell.absent ↔ n ∈ DEFAULT_PARAMETER_NAMES :=
  inv_params_fold DEFAULTS_LIST p (by decide) hp

theorem inv_custom_setCustom {c : String → Option PValue}
    (hc : ∀ n, c n ≠ none → n ∉ DEFAULT_PARAMETER_NAMES)
    (k : String) (hk : k ∉ DEFAULT_PARAMETER_NAMES) (v : PValue) :
    ∀ n, setCustom c k v n ≠ none → n ∉ DEFAULT_PARAMETER_NAMES := by
  intro n
  unfold setCustom
  by_cases hn : n = k
  · subst hn
    intro _
    exact hk
  · rw [if_neg hn]
    exact hc n

theorem inv_derive (s : State) (h : NamespaceInv s) :
    NamespaceInv (derive_base_height s).1 := by
  obtain ⟨b, hb⟩ := derive_shape s
  rw [hb]
  exact h

theorem inv_trackingStep (s : State) (e : String) (a : PValue)
    (h : NamespaceInv s) : NamespaceInv (trackingStep s e a).1 := by
  unfold trackingStep
  repeat' split
  all_goals first
    | exact h
    | exact ⟨inv_params_set_defaults h.1, h.2⟩

theorem inv_processRecognized (s : State) (e : String) (a : PValue)
    (he : e ∈ DEFAULT_PARAMETER_NAMES) (h : NamespaceInv s) :
    NamespaceInv (processRecognized s e a).state := by
  have h1 : NamespaceInv { s with parameters := setParam s.parameters e a } :=
    ⟨inv_params_setParam h.1 e he a, h.2⟩
  unfold processRecognized
  dsimp only
  repeat' split
  all_goals first
    | exact h1
    | exact inv_derive _ h1
    | exact inv_trackingStep _ _ _ h1
    | exact inv_trackingStep _ _ _ (inv_derive _ h1)

theorem inv_processCustom (s : State) (e : String) (a : PValue)
    (he : e ∉ DEFAULT_PARAMETER_NAMES) (h : NamespaceInv s) :
    NamespaceInv (processCustom s e a).state := by
  rw [processCustom_full]
  exact ⟨h.1, inv_custom_setCustom h.2 e he a⟩

theorem inv_dispatchParam (s : State) (e : String) (a : PValue)
    (h : NamespaceInv s) : NamespaceInv (dispatchParam s e a).state := by
  unfold dispatchParam
  split
  · next he => exact inv_processRecognized s e a he h
  · next he => exact inv_processCustom s e a he h

theorem inv_handleParameter (s : State) (e : String) (args : List PValue)
    (h : NamespaceInv s) : NamespaceInv (handleParameter s e args).state := by
  unfold handleParameter
  dsimp only
  repeat' split
  all_goals first
    | exact h
    | exact inv_dispatchParam _ _ _ h

theorem inv_handle (s : State) (addr : String) (args : List PValue)
    (h : NamespaceInv s) : NamespaceInv (handle s addr args).state := by
  unfold handle
  dsimp only
  repeat' split
  all_goals first
    | exact h
    | exact inv_handleParameter _ _ _ h
    | exact ⟨inv_params_set_defaults h.1, h.2⟩

theorem inv_update_parameter (s : State) (p : String) (v : PValue)
    (h : NamespaceInv s) : NamespaceInv (update_parameter s p v).1 := by
  unfold update_parameter
  split
  · next hp => exact ⟨inv_params_setParam h.1 p hp v, h.2⟩
  · next hp => exact ⟨h.1, inv_custom_setCustom h.2 p hp v⟩

theorem inv_step (s : State) (op : Op) (h : NamespaceInv s) :
    NamespaceInv (step s op).state := by
  cases op with
  | inbound addr args =>
    rw [step_inbound]
    exact inv_handle s addr args h
  | opSetInt p v =>
    rw [step_setInt]
    exact inv_update_parameter s p (.vInt v) h
  | opSetFloat p v =>
    rw [step_setFloat]
    exact inv_update_parameter s p (.vFloat v) h
  | opSetBool p v =>
    rw [step_setBool]
    exact inv_update_parameter s p (.vBool v) h

theorem inv_run (s : State) (ops : List Op) (h : NamespaceInv s) :
    NamespaceInv (run s ops).1 := by
  induction ops generalizing s with
  | nil => exact h
  | cons op rest ih =>
    rw [run_cons_state]
    exact ih _ (inv_step s op h)

theorem customOfList_keys (l : List (String × PValue)) (acc : String → Option PValue)
    (n : String) (h : (l.foldl (fun acc2 kv => setCustom acc2 kv.1 kv.2) acc) n ≠ none) :
    acc n ≠ none ∨ ∃ kv ∈ l, kv.1 = n := by
  induction l generalizing acc with
  | nil => exact Or.inl h
  | cons kv rest ih =>
    simp only [List.foldl_cons] at h
    rcases ih _ h with h2 | ⟨kv2, h2, h3⟩
    · unfold setCustom at h2
      by_cases hn : n = kv.1
      · exact Or.inr ⟨kv, List.mem_cons_self _ _, hn.symm⟩
      · rw [if_neg hn] at h2
        exact Or.inl h2
    · exact Or.inr ⟨kv2, List.mem_cons_of_mem _ h2, h3⟩

theorem inv_init (default_id : Option String) (dh : Option ℚ) (forms : List String)
    (custom : List (String × PValue)) (ab acc : Bool) (bl : List String)
    (rnd : Option Nat)
    (hc : ∀ kv ∈ custom, kv.1 ∉ DEFAULT_PARAMETER_NAMES) :
    NamespaceInv (initState default_id dh forms custom ab acc bl rnd) := by
  constructor
  · intro n
    show (if n ∈ DEFAULT_PARAMETER_NAMES then Cell.unfetched else Cell.absent) ≠
        Cell.absent ↔ n ∈ DEFAULT_PARAMETER_NAMES
    by_cases hn : n ∈ DEFAULT_PARAMETER_NAMES
    · simp [hn]
    · simp [hn]
  · intro n hn
    rcases customOfList_keys custom _ n hn with h2 | ⟨kv, h2, h3⟩
    · exact absurd rfl h2
    · exact h3 ▸ hc kv h2

/-- C8 counterexample: `__init__` copies the caller-supplied
`custom_parameters` dict into the custom table without filtering, so
constructing with a recognized name (here `Viseme`) in it puts that name in
the custom table even though it also has a slot in the recognized table:
the namespaces overlap right after construction. -/
theorem C8_counterexample :
    "Viseme" ∈ DEFAULT_PARAMETER_NAMES ∧
    (initState none none [] [("Viseme", .vInt 0)] true false []
        (some 3)).custom_parameters "Viseme" = some (.vInt 0) := by
  decide

/-- C8 (amended): provided construction is given only non-recognized names
in `custom_parameters` (the documented use), every state reachable by any
sequence of inbound messages and outbound sets keeps each name in exactly
one namespace: the recognized table's keys are exactly the fixed recognized
set and the custom table never contains a recognized name.  Construction
itself performs no filtering, so the unrestricted claim fails (see the
counterexample). -/
theorem C8_namespace_invariant (default_id : Option String) (dh : Option ℚ)
    (forms : List String) (custom : List (String × PValue)) (ab acc : Bool)
    (bl : List String) (rnd : Option Nat) (ops : List Op)
    (hc : ∀ kv ∈ custom, kv.1 ∉ DEFAULT_PARAMETER_NAMES) :
    NamespaceInv (run (initState default_id dh forms custom ab acc bl rnd) ops).1 :=
  inv_run _ ops (inv_init default_id dh forms custom ab acc bl rnd hc)

/-- C8 witness: the invariant after a concrete construction and a concrete
mixed trace of inbound updates and outbound sets. -/
theorem C8_witness :
    NamespaceInv (run (initState (some "avtr_1") none [] [("Foo", .vInt 1)] true false [] (some 3))
      [Op.inbound "/avatar/parameters/Bar" [.vFloat (1/2)],
       Op.opSetInt "Viseme" 3,
       Op.inbound "/avatar/parameters/TrackingType" [.vInt 2],
       Op.inbound "/avatar/change" [.vStr "avtr_1"]]).1 :=
  C8_namespace_invariant (some "avtr_1") none [] [("Foo", .vInt 1)] true false [] (some 3)
    _ (by decide)

/-- C9: a message delivered with an empty argument list makes the handler
raise (every branch reads `args[0]`) before any event fires and without
mutating state; the only exception is a parameter address whose endpoint
matches the ignore-prefix list, which returns cleanly before the indexing.
The catch-all `_default_handler` raises the same way. -/
theorem C9_empty_args (s : State) (address : String) :
    (strStarts address "/avatar/parameters" = false →
      handle s address [] = ⟨s, [], some HErr.indexError⟩) ∧
    (strStarts address "/avatar/parameters" = true →
      (blacklisted s (dropPre address "/avatar/parameters/") = true →
        handle s address [] = ⟨s, [], none⟩) ∧
      (blacklisted s (dropPre address "/avatar/parameters/") = false →
        handle s address [] = ⟨s, [], some HErr.indexError⟩)) ∧
    default_handler s address [] = ⟨s, [], some HErr.indexError⟩ := by
  refine ⟨?_, ?_, rfl⟩
  · intro hp
    unfold handle
    rw [if_neg (by rw [hp]; exact Bool.false_ne_true)]
    split
    · rfl
    · rfl
  · intro hp
    unfold handle
    rw [if_pos hp]
    constructor
    · intro hbl
      unfold handleParameter
      rw [if_pos hbl]
    · intro hbl
      unfold handleParameter
      rw [if_neg (by rw [hbl]; exact Bool.false_ne_true)]

/-- C9 witness: the three branches at concrete addresses — a non-parameter
address, a non-blacklisted parameter address, and a blacklisted one. -/
theorem C9_witness :
    handle stateDefault "/avatar/change" [] = ⟨stateDefault, [], some HErr.indexError⟩ ∧
    handle stateDefault "/avatar/parameters/Foo" [] =
      ⟨stateDefault, [], some HErr.indexError⟩ ∧
    handle (initState none none [] [] true false ["Ignored"] (some 3))
        "/avatar/parameters/IgnoredFoo" [] =
      ⟨initState none none [] [] true false ["Ignored"] (some 3), [], none⟩ :=
  ⟨(C9_empty_args stateDefault "/avatar/change").1 (by decide),
   ((C9_empty_args stateDefault "/avatar/parameters/Foo").2.1 (by decide)).2 (by decide),
   ((C9_empty_args (initState none none [] [] true false ["Ignored"] (some 3))
      "/avatar/parameters/IgnoredFoo").2.1 (by decide)).1 (by decide)⟩

theorem update_parameter_spec (s : State) (p : String) (v : PValue) :
    OutboundSpec s p v (update_parameter s p v) := by
  unfold OutboundSpec update_parameter
  by_cases hp : p ∈ DEFAULT_PARAMETER_NAMES
  · rw [if_pos hp]
    exact ⟨by simp [hp], rfl, fun _ => ⟨setParam_self _ _ _, rfl⟩, fun hn => absurd hp hn⟩
  · rw [if_neg hp]
    exact ⟨by simp [hp], rfl, fun hin => absurd hin hp, fun _ => ⟨setCustom_self _ _ _, rfl⟩⟩

/-- C10: every outbound `set_int` / `set_float` / `set_bool` synchronously
stores the given value verbatim into the table its name classifies into
(recognized or custom), appends the self-set marker, and emits exactly one
parameter-changed event with the set flag true — with no float rounding and
no range validation of the stored value (the value is arbitrary in the
statement). -/
theorem C10_outbound_sets (s : State) (p : String) (n : Int) (q : ℚ) (b : Bool) :
    OutboundSpec s p (.vInt n) (set_int s p n) ∧
    OutboundSpec s p (.vFloat q) (set_float s p q) ∧
    OutboundSpec s p (.vBool b) (set_bool s p b) :=
  ⟨update_parameter_spec s p (.vInt n), update_parameter_spec s p (.vFloat q),
   update_parameter_spec s p (.vBool b)⟩

/-- C10 witness: a recognized int set with an out-of-range value (300 is
outside the documented 0–255) is stored verbatim, and a custom float set
with an out-of-precision, out-of-range value (2.5) is stored unrounded. -/
theorem C10_witness :
    (set_int stateDefault "Viseme" 300).1.parameters "Viseme" = Cell.known (.vInt 300) ∧
    (set_float stateDefault "Foo" (5/2)).1.custom_parameters "Foo" =
      some (.vFloat (5/2)) :=
  ⟨((C10_outbound_sets stateDefault "Viseme" 300 0 true).1.2.2.1 (by decide)).1,
   ((C10_outbound_sets stateDefault "Foo" 300 (5/2) true).2.1.2.2.2 (by decide)).1⟩

end AV3
